import Mathlib

/-!
Shallow embedding of the retrieval-augmented document-validation pipeline of
`Updated Document validation agent/app.py`: chunking (`chunk_text`), embedding
(`embed_chunks`), vector search (`build_vector_store` / `semantic_search`),
completion-response handling (`analyze_document_with_ai`), defensive JSON
parsing (`parse_ai_json`) and issue aggregation (the tail of
`validate_document`).  Python values flowing through the pipeline are modelled
by `PyVal`, Python exceptions by `PyErr`, and fallible code returns
`Except PyErr _` or `Option _`.
-/

set_option maxRecDepth 8192

/-- Python runtime values that flow between the pipeline's helpers: `None`,
booleans, numbers (ints and floats collapsed to `ℚ`; no claim depends on
floating-point rounding), strings, lists and dicts (modelled as association
lists in insertion order). -/
inductive PyVal where
  | none : PyVal
  | bool : Bool → PyVal
  | num : ℚ → PyVal
  | str : String → PyVal
  | list : List PyVal → PyVal
  | dict : List (String × PyVal) → PyVal

/-- Python exceptions raised by the modelled code paths. -/
inductive PyErr where
  | runtimeError : String → PyErr
  | typeError : String → PyErr
  | indexError : String → PyErr
  deriving DecidableEq

/-- Python truthiness (`if not x`, `if missing or invalid or risks`):
`None`, `False`, `0`, `""`, `[]` and `{}` are falsy. -/
def truthy : PyVal → Bool
  | .none => false
  | .bool b => b
  | .num q => q ≠ 0
  | .str s => s ≠ ""
  | .list xs => !xs.isEmpty
  | .dict kvs => !kvs.isEmpty

/-- Dict lookup, `d[k]`-style: first binding for the key, `none` when absent. -/
def pyGet (kvs : List (String × PyVal)) (k : String) : Option PyVal :=
  match kvs with
  | [] => Option.none
  | (k', v) :: rest => if k' = k then some v else pyGet rest k

/-- Python `dict.get(k, default)`. -/
def pyGetD (kvs : List (String × PyVal)) (k : String) (dflt : PyVal) : PyVal :=
  (pyGet kvs k).getD dflt

/-- Clamp one bound of a Python slice `xs[a:b]` to `[0, len]`: negative
indices count from the end, then everything is clamped into range. -/
def pyBound (n : Nat) (i : Int) : Nat :=
  if i < 0 then ((n : Int) + i).toNat else min i.toNat n

/-- Python slice `xs[a:b]` (as used by `text[start:end]` in `chunk_text` and
`context[:MAX_CONTEXT_CHARS]` in `validate_document`). -/
def pySlice {α : Type} (xs : List α) (a b : Int) : List α :=
  (xs.take (pyBound xs.length b)).drop (pyBound xs.length a)

/-- Python list subscript `xs[i]`: negative `i` counts from the end,
out-of-range raises `IndexError`. -/
def pyListGet {α : Type} (xs : List α) (i : Int) : Except PyErr α :=
  let j : Int := if i < 0 then (xs.length : Int) + i else i
  if 0 ≤ j then
    match xs.get? j.toNat with
    | some x => .ok x
    | Option.none => .error (.indexError "list index out of range")
  else .error (.indexError "list index out of range")

/-- The `while start < len(text)` loop of `chunk_text`, with explicit fuel.
The loop variable `start` is a Python int (it can go negative when
`overlap > chunk_size`), so it is modelled as `Int`.  Each iteration appends
`text[start:start+chunk_size]` and sets `start = (start + chunk_size) - overlap`.
`none` means the fuel ran out before the loop guard turned false. -/
def chunkLoop (text : List Char) (chunk_size overlap : Nat) :
    Nat → Int → Option (List (List Char))
  | 0, _ => Option.none
  | fuel + 1, start =>
    if start < (text.length : Int) then
      match chunkLoop text chunk_size overlap fuel (start + chunk_size - overlap) with
      | some rest => some (pySlice text start (start + chunk_size) :: rest)
      | Option.none => Option.none
    else
      some []

/-- Model of `chunk_text(text, chunk_size, overlap)` from app.py.  `text.length + 1`
fuel is enough for every terminating run (the loop runs at most
`text.length` iterations when it terminates at all); a `none` result means
the source loop does not terminate within that budget. -/
def chunk_text (text : List Char) (chunk_size overlap : Nat) :
    Option (List (List Char)) :=
  chunkLoop text chunk_size overlap (text.length + 1) 0

/-- Ceiling division on `Nat`. -/
def cdiv (a b : Nat) : Nat := (a + b - 1) / b

/-- Whitespace removed by Python `str.strip()`. -/
def isPyWs (c : Char) : Bool :=
  c = ' ' || c = '\t' || c = '\n' || c = '\r' || c = '\x0b' || c = '\x0c'

/-- Python `s.strip()`. -/
def pyStrip (s : List Char) : List Char :=
  ((s.dropWhile isPyWs).reverse.dropWhile isPyWs).reverse

/-- Fuel-indexed worker for `stripFences`; every step consumes at least one
input character, so `fuel = length` never runs out (the `0` case is
unreachable from `stripFences`). -/
def stripFencesAux : Nat → List Char → List Char
  | 0, s => s
  | _ + 1, [] => []
  | fuel + 1, c :: cs =>
    if (c :: cs).take 7 = "```json".toList then stripFencesAux fuel ((c :: cs).drop 7)
    else if (c :: cs).take 3 = "```".toList then stripFencesAux fuel ((c :: cs).drop 3)
    else c :: stripFencesAux fuel cs

/-- Model of `re.sub(r"```json|```", "", ai_text)`: scan left to right; at
each position the alternation prefers the longer alternative `` ```json ``,
then `` ``` ``; matches are removed, everything else is kept. -/
def stripFences (s : List Char) : List Char :=
  stripFencesAux s.length s

/-- JSON insignificant whitespace, skipped between tokens by `json.loads`. -/
def skipWs (s : List Char) : List Char :=
  s.dropWhile (fun c => c = ' ' || c = '\t' || c = '\n' || c = '\r')

/-- Hex digit value, for `\u` escapes. -/
def hexVal (c : Char) : Option Nat :=
  if '0' ≤ c ∧ c ≤ '9' then some (c.toNat - 48)
  else if 'a' ≤ c ∧ c ≤ 'f' then some (c.toNat - 87)
  else if 'A' ≤ c ∧ c ≤ 'F' then some (c.toNat - 55)
  else Option.none

/-- Body of a JSON string literal (the opening quote already consumed):
processes escapes, rejects unescaped control characters and unterminated
strings, returns the decoded string and the rest of the input. -/
def parseJsonStr (acc : List Char) : List Char → Option (String × List Char)
  | [] => Option.none
  | '"' :: rest => some (String.mk acc.reverse, rest)
  | '\\' :: e :: rest =>
    match e with
    | '"' => parseJsonStr ('"' :: acc) rest
    | '\\' => parseJsonStr ('\\' :: acc) rest
    | '/' => parseJsonStr ('/' :: acc) rest
    | 'b' => parseJsonStr ('\x08' :: acc) rest
    | 'f' => parseJsonStr ('\x0c' :: acc) rest
    | 'n' => parseJsonStr ('\n' :: acc) rest
    | 'r' => parseJsonStr ('\r' :: acc) rest
    | 't' => parseJsonStr ('\t' :: acc) rest
    | 'u' =>
      match rest with
      | h1 :: h2 :: h3 :: h4 :: rest' =>
        match hexVal h1, hexVal h2, hexVal h3, hexVal h4 with
        | some a, some b, some c, some d =>
          parseJsonStr (Char.ofNat (((a * 16 + b) * 16 + c) * 16 + d) :: acc) rest'
        | _, _, _, _ => Option.none
      | _ => Option.none
    | _ => Option.none
  | c :: rest =>
    if c.toNat < 32 then Option.none else parseJsonStr (c :: acc) rest

/-- Longest digit prefix and the remainder. -/
def parseDigits (s : List Char) : List Char × List Char :=
  (s.takeWhile Char.isDigit, s.dropWhile Char.isDigit)

/-- Decimal digits to a natural number. -/
def digitsToNat (ds : List Char) : Nat :=
  ds.foldl (fun n c => n * 10 + (c.toNat - 48)) 0

/-- Optional exponent part of a JSON number applied to the mantissa
(the `e`/`E` already consumed). -/
def applyExp (q : ℚ) (r : List Char) : Option (ℚ × List Char) :=
  let (eneg, r1) : Bool × List Char :=
    match r with
    | '+' :: t => (false, t)
    | '-' :: t => (true, t)
    | _ => (false, r)
  let (ed, r2) := parseDigits r1
  if ed.isEmpty then Option.none
  else
    let e : Nat := digitsToNat ed
    some ((if eneg then q / (10 : ℚ) ^ e else q * (10 : ℚ) ^ e), r2)

/-- A JSON number per the JSON grammar (optional sign, no leading zeros,
optional fraction and exponent), as a rational. -/
def parseJsonNumber (s : List Char) : Option (ℚ × List Char) :=
  let (neg, s1) : Bool × List Char :=
    match s with
    | '-' :: r => (true, r)
    | _ => (false, s)
  let (ip, s2) := parseDigits s1
  if ip.isEmpty then Option.none
  else if ip.length > 1 && ip.headD '0' = '0' then Option.none
  else
    let (fp, s3) : List Char × List Char :=
      match s2 with
      | '.' :: r => parseDigits r
      | _ => ([], s2)
    let fracBad : Bool :=
      match s2 with
      | '.' :: _ => fp.isEmpty
      | _ => false
    if fracBad then Option.none
    else
      let core : ℚ := (digitsToNat ip : ℚ) + (digitsToNat fp : ℚ) / (10 : ℚ) ^ fp.length
      let signed : ℚ := if neg then -core else core
      match s3 with
      | 'e' :: r => applyExp signed r
      | 'E' :: r => applyExp signed r
      | _ => some (signed, s3)

mutual

/-- One JSON value (fuel-indexed recursive-descent model of `json.loads`);
returns the value and the unconsumed input. -/
def parseJsonVal : Nat → List Char → Option (PyVal × List Char)
  | 0, _ => Option.none
  | fuel + 1, s =>
    match skipWs s with
    | 'n' :: 'u' :: 'l' :: 'l' :: r => some (.none, r)
    | 't' :: 'r' :: 'u' :: 'e' :: r => some (.bool true, r)
    | 'f' :: 'a' :: 'l' :: 's' :: 'e' :: r => some (.bool false, r)
    | '"' :: r =>
      match parseJsonStr [] r with
      | some (str, rest) => some (.str str, rest)
      | Option.none => Option.none
    | '[' :: r =>
      match skipWs r with
      | ']' :: r' => some (.list [], r')
      | _ =>
        match parseArrayItems fuel r with
        | some (xs, rest) => some (.list xs, rest)
        | Option.none => Option.none
    | '\x7b' :: r =>
      match skipWs r with
      | '\x7d' :: r' => some (.dict [], r')
      | _ =>
        match parseObjMembers fuel r with
        | some (kvs, rest) => some (.dict kvs, rest)
        | Option.none => Option.none
    | s' =>
      match parseJsonNumber s' with
      | some (q, rest) => some (.num q, rest)
      | Option.none => Option.none

/-- Comma-separated JSON array items up to the closing bracket. -/
def parseArrayItems : Nat → List Char → Option (List PyVal × List Char)
  | 0, _ => Option.none
  | fuel + 1, s =>
    match parseJsonVal fuel s with
    | some (v, r) =>
      match skipWs r with
      | ',' :: r' =>
        match parseArrayItems fuel r' with
        | some (xs, rest) => some (v :: xs, rest)
        | Option.none => Option.none
      | ']' :: r' => some ([v], r')
      | _ => Option.none
    | Option.none => Option.none

/-- Comma-separated JSON object members up to the closing brace. -/
def parseObjMembers : Nat → List Char → Option (List (String × PyVal) × List Char)
  | 0, _ => Option.none
  | fuel + 1, s =>
    match skipWs s with
    | '"' :: r =>
      match parseJsonStr [] r with
      | some (k, r1) =>
        match skipWs r1 with
        | ':' :: r2 =>
          match parseJsonVal fuel r2 with
          | some (v, r3) =>
            match skipWs r3 with
            | ',' :: r4 =>
              match parseObjMembers fuel r4 with
              | some (kvs, rest) => some ((k, v) :: kvs, rest)
              | Option.none => Option.none
            | '\x7d' :: r4 => some ([(k, v)], r4)
            | _ => Option.none
          | Option.none => Option.none
        | _ => Option.none
      | Option.none => Option.none
    | _ => Option.none

end

/-- Model of `json.loads`: parse one JSON document, allowing only trailing
whitespace; `none` models a raised `JSONDecodeError`.  The fuel
`2 * length + 2` is enough for any input, since every recursive call
consumes at least one input character. -/
def jsonParse (s : List Char) : Option PyVal :=
  match parseJsonVal (2 * s.length + 2) s with
  | some (v, rest) => if skipWs rest = [] then some v else Option.none
  | Option.none => Option.none

/-- Whether a Python value is a dict (a mapping). -/
def PyVal.isDict : PyVal → Bool
  | .dict _ => true
  | _ => false

/-- Model of `parse_ai_json(ai_text)` from app.py.  The argument is a Python value
because `analyze_document_with_ai` hands this function either the model's
content or a structured error dict.  `if not ai_text` short-circuits on any
falsy input; `re.sub` demands a string and raises `TypeError` on anything
else; otherwise code fences are stripped, the text trimmed and parsed, with
the documented fallback dict on `JSONDecodeError`. -/
def parse_ai_json (ai_text : PyVal) : Except PyErr PyVal :=
  if truthy ai_text = false then
    .ok (.dict [("error", .str "Empty AI response")])
  else
    match ai_text with
    | .str s =>
      let cleaned := pyStrip (stripFences s.toList)
      match jsonParse cleaned with
      | some v => .ok v
      | Option.none =>
        .ok (.dict [("error", .str "Invalid JSON returned by AI"),
                    ("raw_response", .str s)])
    | _ => .error (.typeError "expected string or bytes-like object")

/-- One chunk paired with its embedding, as built by `embed_chunks`. -/
structure EmbeddedChunk where
  text : List Char
  embedding : List ℚ

/-- The part of an embedding-provider HTTP response that `embed_chunks` and
`semantic_search` consume: the status code, and the vector found at
`res.json()["data"][0]["embedding"]` (body extraction is modelled as already
done; embedding components are `ℚ`, as no claim depends on float rounding). -/
structure EmbResp where
  status : Nat
  embedding : List ℚ

/-- Model of `embed_chunks(chunks)` from app.py, parameterised by the embedding
provider (one HTTP call per chunk, in order).  A non-200 status raises
`RuntimeError("Embedding generation failed")`, aborting the whole batch;
otherwise each chunk is paired with its embedding, in input order. -/
def embed_chunks (provider : List Char → EmbResp) :
    List (List Char) → Except PyErr (List EmbeddedChunk)
  | [] => .ok []
  | chunk :: rest =>
    let res := provider chunk
    if res.status ≠ 200 then .error (.runtimeError "Embedding generation failed")
    else
      match embed_chunks provider rest with
      | .ok es => .ok (⟨chunk, res.embedding⟩ :: es)
      | .error e => .error e

/-- Model of `build_vector_store(embedded_chunks)` from app.py: the faiss index holds
the vectors in insertion order, and the parallel `texts` list their sources. -/
def build_vector_store (embedded_chunks : List EmbeddedChunk) :
    List (List ℚ) × List (List Char) :=
  (embedded_chunks.map (·.embedding), embedded_chunks.map (·.text))

/-- Squared Euclidean distance, the metric of `faiss.IndexFlatL2`. -/
def sqDist (q v : List ℚ) : ℚ :=
  ((q.zip v).map fun p => (p.1 - p.2) ^ 2).sum

/-- Insert a (distance, insertion-index) pair into a list sorted by distance
ascending, ties broken by smaller insertion index. -/
def insertPair (p : ℚ × Nat) : List (ℚ × Nat) → List (ℚ × Nat)
  | [] => [p]
  | q :: rest =>
    if p.1 < q.1 ∨ (p.1 = q.1 ∧ p.2 ≤ q.2) then p :: q :: rest
    else q :: insertPair p rest

/-- Insertion sort of (distance, insertion-index) pairs. -/
def sortPairs : List (ℚ × Nat) → List (ℚ × Nat)
  | [] => []
  | p :: rest => insertPair p (sortPairs rest)

/-- Model of `faiss.IndexFlatL2.search` for one query: an exhaustive scan
returning the labels of the `k` nearest stored vectors by squared L2
distance, ascending, ties by insertion order; per faiss's documented
contract, when fewer than `k` vectors are stored the result row is padded
with the label `-1`. -/
def faissSearch (vecs : List (List ℚ)) (q : List ℚ) (k : Nat) : List Int :=
  let scored := ((vecs.map (sqDist q)).enum.map fun p => (p.2, p.1))
  let sorted := sortPairs scored
  ((sorted.map fun p => ((p.2 : Int))).take k) ++
    List.replicate (k - vecs.length) (-1)

/-- The list comprehension `[texts[i] for i in indices[0]]`: Python list
indexing, so a label of `-1` silently selects the LAST text, and an index
out of range raises `IndexError`. -/
def mapGetTexts (texts : List (List Char)) : List Int → Except PyErr (List (List Char))
  | [] => .ok []
  | i :: rest =>
    match pyListGet texts i with
    | .error e => .error e
    | .ok t =>
      match mapGetTexts texts rest with
      | .error e => .error e
      | .ok ts => .ok (t :: ts)

/-- Model of `semantic_search(index, texts, query, top_k)` from app.py,
parameterised by the provider's response to the query-embedding request
(non-200 raises `RuntimeError("Query embedding failed")`). -/
def semantic_search (index : List (List ℚ)) (texts : List (List Char))
    (queryResp : EmbResp) (top_k : Nat) : Except PyErr (List (List Char)) :=
  if queryResp.status ≠ 200 then .error (.runtimeError "Query embedding failed")
  else mapGetTexts texts (faissSearch index queryResp.embedding top_k)

/-- The part of a completion-provider HTTP response that
`analyze_document_with_ai` consumes: status code, the JSON body as parsed by
`res.json()` (`none` when the body is not JSON, which makes `res.json()`
raise inside the `try`), and the raw text. -/
structure HttpResp where
  status : Nat
  body : Option PyVal
  text : String

/-- Python subscript `v[k]` with a string key: only dicts succeed
(`KeyError` / `TypeError` otherwise — both are caught by the caller's
blanket `except Exception`, so failures are collapsed to `none`). -/
def pySubscriptStr (v : PyVal) (k : String) : Option PyVal :=
  match v with
  | .dict kvs => pyGet kvs k
  | _ => Option.none

/-- Python subscript `v[i]` with a non-negative int key: lists index,
strings yield one-character strings, everything else fails. -/
def pySubscriptIdx (v : PyVal) (i : Nat) : Option PyVal :=
  match v with
  | .list xs => xs.get? i
  | .str s => (s.toList.get? i).map fun c => .str (String.mk [c])
  | _ => Option.none

/-- The chain `res.json()["choices"][0]["message"]["content"]`; `none` when any step
of the chain raises. -/
def extractContent (body : Option PyVal) : Option PyVal :=
  match body with
  | some b =>
    ((((pySubscriptStr b "choices").bind
        (pySubscriptIdx · 0)).bind
        (pySubscriptStr · "message")).bind
        (pySubscriptStr · "content"))
  | Option.none => Option.none

/-- Model of `analyze_document_with_ai(context)` from app.py, parameterised by the
completion provider's HTTP response (the prompt construction from `context`
does not influence the returned value and is elided).  A non-200 status
returns the three-field error dict; on 200 the content is extracted inside
`try`, with `{"error": "AI analysis failed"}` on any exception.  The
function never raises. -/
def analyze_document_with_ai (res : HttpResp) : PyVal :=
  if res.status ≠ 200 then
    .dict [("error", .str "AI analysis unavailable"),
           ("status_code", .num res.status),
           ("response", .str res.text)]
  else
    match extractContent res.body with
    | some v => v
    | Option.none => .dict [("error", .str "AI analysis failed")]

/-- The constant `MAX_CONTEXT_CHARS` from `validate_document`. -/
def MAX_CONTEXT_CHARS : Nat := 2500

/-- The lines `context = "\n".join(relevant_chunks); context = context[:MAX_CONTEXT_CHARS]`
from `validate_document`. -/
def assemble_context (relevant_chunks : List (List Char)) : List Char :=
  pySlice (List.intercalate ['\n'] relevant_chunks) 0 MAX_CONTEXT_CHARS

/-- The aggregation tail of `validate_document` (app.py lines 250-269):
`missing`/`risks` are read from the parsed mapping with `[]` defaults,
`invalid` is the hard-coded empty list, the status is decided by Python
truthiness of the three, and `document_type`/`message` get their defaults
from `dict.get`. -/
def validate_document_report (ai_parsed : List (String × PyVal)) : PyVal :=
  let missing := pyGetD ai_parsed "missing_fields" (.list [])
  let risks := pyGetD ai_parsed "risks" (.list [])
  let invalid : PyVal := .list []
  let status : String :=
    if truthy missing || truthy invalid || truthy risks then "NEEDS_ATTENTION"
    else "CLEAR"
  .dict [("document_type", pyGetD ai_parsed "document_type" (.str "Unknown")),
         ("status", .str status),
         ("issues", .dict [("missing_fields", missing),
                           ("invalid_fields", invalid),
                           ("risks", risks)]),
         ("message", pyGetD ai_parsed "summary" (.str "Document analysis completed."))]

/-- The end-to-end scenario input `"Hello world. " * 100` (1300 characters). -/
def helloList : List Char := (List.replicate 100 "Hello world. ".toList).flatten

/-- The first window `text[0:800]` the chunker emits on `helloList`. -/
def helloC0 : List Char := pySlice helloList 0 800

/-- The second window `text[700:1500]` the chunker emits on `helloList`
(600 characters: the slice is clamped at the end of the text). -/
def helloC1 : List Char := pySlice helloList 700 1500

lemma cdiv_step (a b : Nat) (ha : 1 ≤ a) (hb : 1 ≤ b) :
    cdiv a b = cdiv (a - b) b + 1 := by
  unfold cdiv
  rcases le_or_lt a b with h | h
  · have h1 : a + b - 1 = (a - 1) + b := by omega
    have h2 : a - b = 0 := by omega
    rw [h1, h2, Nat.add_div_right _ hb, Nat.div_eq_of_lt (by omega),
      Nat.div_eq_of_lt (by omega)]
  · have h1 : a + b - 1 = (a - 1) + b := by omega
    have h2 : a - b + b - 1 = a - 1 := by omega
    rw [h1, h2, Nat.add_div_right _ hb]

lemma pySlice_natCast_length {α : Type} (xs : List α) (a b : Nat) :
    (pySlice xs (a : Int) (b : Int)).length = min b xs.length - min a xs.length := by
  have ha : ¬((a : Int) < 0) := by omega
  have hb : ¬((b : Int) < 0) := by omega
  simp only [pySlice, pyBound, ha, hb, if_false, List.length_drop,
    List.length_take, Int.toNat_natCast]
  omega

/-- When `overlap < chunk_size`, the chunker's loop terminates from any
non-negative start given more fuel than remaining characters, producing
`ceil((len - start) / (chunk_size - overlap))` windows, each of length at
most `chunk_size`. -/
lemma chunkLoop_terminates (text : List Char) (cs ov : Nat) (hov : ov < cs) :
    ∀ fuel s : Nat, text.length - s < fuel →
      ∃ out, chunkLoop text cs ov fuel (s : Int) = some out ∧
        out.length = cdiv (text.length - s) (cs - ov) ∧
        ∀ c ∈ out, c.length ≤ cs := by
  intro fuel
  induction fuel with
  | zero => intro s h; omega
  | succ fuel ih =>
    intro s h
    by_cases hs : s < text.length
    · have hguard : (s : Int) < (text.length : Int) := by omega
      have harg : (s : Int) + (cs : Nat) - (ov : Nat) = ((s + (cs - ov) : Nat) : Int) := by
        omega
      obtain ⟨out, hout, hlen, hbnd⟩ := ih (s + (cs - ov)) (by omega)
      refine ⟨pySlice text (s : Int) ((s : Int) + cs) :: out, ?_, ?_, ?_⟩
      · simp only [chunkLoop, if_pos hguard, harg, hout]
      · simp only [List.length_cons, hlen]
        have h1 : text.length - (s + (cs - ov)) = (text.length - s) - (cs - ov) := by
          omega
        rw [h1, ← cdiv_step (text.length - s) (cs - ov) (by omega) (by omega)]
      · intro c hc
        rcases List.mem_cons.mp hc with rfl | hc'
        · have hcast : (s : Int) + (cs : Nat) = ((s + cs : Nat) : Int) := by omega
          rw [hcast, pySlice_natCast_length]
          omega
        · exact hbnd c hc'
    · refine ⟨[], ?_, ?_, by simp⟩
      · have hguard : ¬((s : Int) < (text.length : Int)) := by omega
        simp only [chunkLoop, if_neg hguard]
      · have h0 : text.length - s = 0 := by omega
        simp only [List.length_nil, h0, cdiv, Nat.zero_add,
          Nat.div_eq_of_lt (by omega : cs - ov - 1 < cs - ov)]

/-- When `overlap ≥ chunk_size`, the window start never advances, so the
chunker's loop never terminates from any start strictly below the text
length, no matter how much fuel it gets. -/
lemma chunkLoop_stuck (text : List Char) (cs ov : Nat) (hov : cs ≤ ov) :
    ∀ fuel (start : Int), start < (text.length : Int) →
      chunkLoop text cs ov fuel start = Option.none := by
  intro fuel
  induction fuel with
  | zero => intro start _; rfl
  | succ fuel ih =>
    intro start h
    have hrec : chunkLoop text cs ov fuel (start + (cs : Nat) - (ov : Nat)) =
        Option.none := ih _ (by omega)
    simp only [chunkLoop, if_pos h, hrec]

/-- Searching a two-vector index with `top_k = 3` returns three texts: the
two stored texts (closest first) followed by the last text again, selected
by the padding label `-1` through Python negative indexing. -/
lemma semantic_search_two (v0 v1 : List ℚ) (t0 t1 : List Char) (qv : List ℚ) :
    semantic_search [v0, v1] [t0, t1] ⟨200, qv⟩ 3 = .ok [t0, t1, t1] ∨
    semantic_search [v0, v1] [t0, t1] ⟨200, qv⟩ 3 = .ok [t1, t0, t1] := by
  by_cases h : sqDist qv v0 < sqDist qv v1 ∨
      (sqDist qv v0 = sqDist qv v1 ∧ (0 : Nat) ≤ 1)
  · left
    simp only [semantic_search, faissSearch, sortPairs, insertPair, List.map_cons,
      List.map_nil, List.enum, List.enumFrom, if_pos h]
    rfl
  · right
    simp only [semantic_search, faissSearch, sortPairs, insertPair, List.map_cons,
      List.map_nil, List.enum, List.enumFrom, if_neg h]
    rfl

lemma intercalate3_length (a b c : List Char) :
    (List.intercalate ['\n'] [a, b, c]).length = a.length + b.length + c.length + 2 := by
  simp [List.intercalate, List.intersperse]
  omega

/-- Context truncation is the identity when the joined context fits inside
`MAX_CONTEXT_CHARS`. -/
lemma assemble_context_of_short (rc : List (List Char))
    (h : (List.intercalate ['\n'] rc).length ≤ MAX_CONTEXT_CHARS) :
    assemble_context rc = List.intercalate ['\n'] rc := by
  unfold assemble_context pySlice pyBound
  set l := List.intercalate ['\n'] rc with hl
  have hmax : ¬((MAX_CONTEXT_CHARS : Int) < 0) := by decide
  have h0 : ¬((0 : Int) < 0) := by decide
  simp only [hmax, h0, if_false]
  have h1 : min (Int.toNat (MAX_CONTEXT_CHARS : Int)) l.length = l.length := by
    simp only [Int.toNat_natCast]
    omega
  have h2 : min (Int.toNat (0 : Int)) l.length = 0 := by simp
  rw [h1, h2, List.take_length, List.drop_zero]

/-- C1: the claim says `semantic_search` returns exactly `min(top_k, n)`
chunk texts; on the code, a one-chunk index queried with `top_k = 3`
returns THREE texts — faiss pads the missing results with label `-1` and
`texts[-1]` silently re-selects the last chunk — so search can return more
chunks than the index holds. -/
theorem semantic_search_returns_more_than_index_holds :
    semantic_search [[1]] [['A']] ⟨200, [0]⟩ 3 = .ok [['A'], ['A'], ['A']] := rfl

/-- C2: the claim says chunking with `overlap ≥ size` fails fast with an
`InvalidConfiguration` error; the code has no such check — on text `"a"`
with `chunk_size = 1, overlap = 1` the loop never terminates (it returns no
value for any amount of fuel, and `chunk_text`'s own budget runs dry). -/
theorem chunk_text_overlap_ge_size_loops :
    (∀ fuel, chunkLoop ['a'] 1 1 fuel 0 = Option.none) ∧
    chunk_text ['a'] 1 1 = Option.none :=
  ⟨fun fuel => chunkLoop_stuck ['a'] 1 1 (le_refl 1) fuel 0 (by decide),
   chunkLoop_stuck ['a'] 1 1 (le_refl 1) 2 0 (by decide)⟩

/-- C3: the claim says the structured error value produced for a
non-success completion status passes through `parse_ai_json` unchanged; on
the code the error dict reaches `re.sub`, which only accepts strings, so
the parser raises `TypeError` instead of passing the dict through. -/
theorem parse_ai_json_raises_on_structured_error :
    parse_ai_json (analyze_document_with_ai ⟨500, Option.none, "Internal Server Error"⟩) =
      .error (.typeError "expected string or bytes-like object") := rfl

/-- C4 counterexample: on the 4-character text `"aaaa"` with
`chunk_size = 3, overlap = 2` the code produces 4 chunks while the claim's
formula `ceil((len - overlap) / (size - overlap))` gives 2 — off by 2, not
boundary rounding. -/
theorem chunk_count_formula_counterexample :
    (chunk_text "aaaa".toList 3 2).map List.length = some 4 ∧
    cdiv ("aaaa".toList.length - 2) (3 - 2) = 2 ∧ (4 : Nat) ≠ 2 :=
  ⟨by decide, by decide, by decide⟩

/-- C4 (amended): for every non-empty text and valid `(size, overlap)` with
`overlap < size`, chunking terminates, produces exactly
`ceil(len(text) / (size - overlap))` chunks, and every chunk has length at
most `size`. -/
theorem chunk_text_terminates_count_bound (text : List Char) (cs ov : Nat)
    (hne : text ≠ []) (hov : ov < cs) :
    ∃ out, chunk_text text cs ov = some out ∧
      out.length = cdiv text.length (cs - ov) ∧
      ∀ c ∈ out, c.length ≤ cs := by
  obtain ⟨out, h1, h2, h3⟩ :=
    chunkLoop_terminates text cs ov hov (text.length + 1) 0 (by omega)
  refine ⟨out, ?_, by simpa using h2, h3⟩
  simpa [chunk_text] using h1

/-- Witness for C4 at `text = "abcde"`, `size = 2`, `overlap = 1`. -/
theorem chunk_text_terminates_count_bound_witness :
    ∃ out, chunk_text "abcde".toList 2 1 = some out ∧
      out.length = cdiv "abcde".toList.length (2 - 1) ∧
      ∀ c ∈ out, c.length ≤ 2 :=
  chunk_text_terminates_count_bound "abcde".toList 2 1 (by decide) (by decide)

/-- C5 counterexample: `"Hello world. " * 100` (1300 characters) with
`chunk_size = 800, overlap = 100` yields 2 chunks, not the 3 the claim
states (window starts are 0 and 700; the next start 1400 is past the end). -/
theorem hello_chunk_count_counterexample :
    (chunk_text helloList 800 100).map List.length = some 2 ∧
    ¬((chunk_text helloList 800 100).map List.length = some 3) :=
  ⟨by decide, by decide⟩

/-- C5 (amended): on `"Hello world. " * 100` (1300 characters) with
`chunk_size = 800, overlap = 100`, chunking yields exactly 2 chunks of
lengths 800 and 600; for any embedding-provider responses with status 200,
retrieval with `top_k = 3` returns 3 texts — the two chunks (closest
first) plus the last chunk repeated via index padding — and the assembled
context, truncated to 2500 characters, equals the full newline-joined
concatenation unchanged. -/
theorem hello_pipeline (p : List Char → EmbResp) (qr : EmbResp)
    (hp : ∀ c, (p c).status = 200) (hq : qr.status = 200) :
    chunk_text helloList 800 100 = some [helloC0, helloC1] ∧
    helloC0.length = 800 ∧ helloC1.length = 600 ∧
    embed_chunks p [helloC0, helloC1] =
      .ok [⟨helloC0, (p helloC0).embedding⟩, ⟨helloC1, (p helloC1).embedding⟩] ∧
    build_vector_store [⟨helloC0, (p helloC0).embedding⟩, ⟨helloC1, (p helloC1).embedding⟩] =
      ([(p helloC0).embedding, (p helloC1).embedding], [helloC0, helloC1]) ∧
    ∃ res, semantic_search [(p helloC0).embedding, (p helloC1).embedding]
        [helloC0, helloC1] qr 3 = .ok res ∧
      res.length = 3 ∧
      (res = [helloC0, helloC1, helloC1] ∨ res = [helloC1, helloC0, helloC1]) ∧
      assemble_context res = List.intercalate ['\n'] res := by
  have e0 : helloC0.length = 800 := by decide
  have e1 : helloC1.length = 600 := by decide
  refine ⟨by decide, e0, e1, ?_, rfl, ?_⟩
  · have h0 := hp helloC0
    have h1 := hp helloC1
    simp [embed_chunks, h0, h1]
  · obtain ⟨st, qv⟩ := qr
    simp only at hq
    subst hq
    rcases semantic_search_two (p helloC0).embedding (p helloC1).embedding
        helloC0 helloC1 qv with h | h
    · refine ⟨[helloC0, helloC1, helloC1], h, rfl, Or.inl rfl, ?_⟩
      apply assemble_context_of_short
      rw [intercalate3_length, e0, e1]
      decide
    · refine ⟨[helloC1, helloC0, helloC1], h, rfl, Or.inr rfl, ?_⟩
      apply assemble_context_of_short
      rw [intercalate3_length, e0, e1]
      decide

/-- Witness for C5 with a provider that returns status 200 and vector `[1]`
for every chunk and `[0]` for the query. -/
theorem hello_pipeline_witness :
    chunk_text helloList 800 100 = some [helloC0, helloC1] ∧
    helloC0.length = 800 ∧ helloC1.length = 600 ∧
    embed_chunks (fun _ => EmbResp.mk 200 [1]) [helloC0, helloC1] =
      .ok [⟨helloC0, [1]⟩, ⟨helloC1, [1]⟩] ∧
    build_vector_store [⟨helloC0, [1]⟩, ⟨helloC1, [1]⟩] =
      ([[1], [1]], [helloC0, helloC1]) ∧
    ∃ res, semantic_search [[1], [1]] [helloC0, helloC1] (EmbResp.mk 200 [0]) 3 = .ok res ∧
      res.length = 3 ∧
      (res = [helloC0, helloC1, helloC1] ∨ res = [helloC1, helloC0, helloC1]) ∧
      assemble_context res = List.intercalate ['\n'] res :=
  hello_pipeline (fun _ => EmbResp.mk 200 [1]) (EmbResp.mk 200 [0]) (fun _ => rfl) rfl

/-- C6 counterexample: the claim says the parser returns a mapping for
every string input; on input `"3"` (valid non-object JSON) `json.loads`
succeeds and `parse_ai_json` returns the number 3, which is not a mapping. -/
theorem parse_ai_json_nonmapping_counterexample :
    (parse_ai_json (.str "3")).map PyVal.isDict = .ok false := rfl

/-- C6 (amended): the parser is total on strings — it never raises — and
for every non-empty string whose cleaned form fails strict JSON parsing it
returns exactly the fallback mapping
`{error: "Invalid JSON returned by AI", raw_response: <original input>}`;
the result is, however, whatever JSON value was parsed, a mapping only when
the model returned a JSON object. -/
theorem parse_ai_json_total_and_fallback (s : String) :
    (parse_ai_json (.str s)).isOk = true ∧
    (s ≠ "" → jsonParse (pyStrip (stripFences s.toList)) = Option.none →
      parse_ai_json (.str s) =
        .ok (.dict [("error", .str "Invalid JSON returned by AI"),
                    ("raw_response", .str s)])) := by
  by_cases hse : s = ""
  · subst hse
    exact ⟨rfl, fun hne _ => absurd rfl hne⟩
  · have hs : truthy (.str s) = true := by simp [truthy, hse]
    constructor
    · simp only [parse_ai_json, hs]
      cases hj : jsonParse (pyStrip (stripFences s.toList)) <;>
        simp [hj, Except.isOk, Except.toBool]
    · intro _ hfail
      have hfail' : jsonParse (pyStrip (stripFences s.data)) = Option.none := hfail
      simp [parse_ai_json, hs, hfail']

/-- Witness for C6 at the non-JSON input `"not json"`. -/
theorem parse_ai_json_total_and_fallback_witness :
    (parse_ai_json (.str "not json")).isOk = true ∧
    parse_ai_json (.str "not json") =
      .ok (.dict [("error", .str "Invalid JSON returned by AI"),
                  ("raw_response", .str "not json")]) :=
  ⟨(parse_ai_json_total_and_fallback "not json").1,
   (parse_ai_json_total_and_fallback "not json").2 (by decide) rfl⟩

/-- C7: aggregation yields `NEEDS_ATTENTION` exactly when one of the three
issue sequences (missing fields, the always-empty invalid-fields list,
risks) is non-empty and `CLEAR` otherwise; `document_type` and the message
default to `"Unknown"` and `"Document analysis completed."` when their keys
are absent; aggregating the empty mapping yields `CLEAR`, `"Unknown"` and
empty issue sequences. -/
theorem validate_report_status_and_defaults (m : List (String × PyVal)) (ms rs : List PyVal)
    (hms : pyGetD m "missing_fields" (.list []) = .list ms)
    (hrs : pyGetD m "risks" (.list []) = .list rs) :
    (pySubscriptStr (validate_document_report m) "status" = some (.str "NEEDS_ATTENTION") ↔
      (ms ≠ [] ∨ ([] : List PyVal) ≠ [] ∨ rs ≠ [])) ∧
    (pySubscriptStr (validate_document_report m) "status" = some (.str "CLEAR") ↔
      ¬(ms ≠ [] ∨ ([] : List PyVal) ≠ [] ∨ rs ≠ [])) ∧
    (pyGet m "document_type" = Option.none →
      pySubscriptStr (validate_document_report m) "document_type" = some (.str "Unknown")) ∧
    (pyGet m "summary" = Option.none →
      pySubscriptStr (validate_document_report m) "message" =
        some (.str "Document analysis completed.")) ∧
    validate_document_report [] =
      .dict [("document_type", .str "Unknown"), ("status", .str "CLEAR"),
             ("issues", .dict [("missing_fields", .list []), ("invalid_fields", .list []),
                               ("risks", .list [])]),
             ("message", .str "Document analysis completed.")] := by
  refine ⟨?_, ?_, ?_, ?_, rfl⟩
  · simp only [validate_document_report, pySubscriptStr, pyGet, hms, hrs]
    rcases ms with _ | ⟨m0, ms'⟩ <;> rcases rs with _ | ⟨r0, rs'⟩ <;>
      simp [truthy]
  · simp only [validate_document_report, pySubscriptStr, pyGet, hms, hrs]
    rcases ms with _ | ⟨m0, ms'⟩ <;> rcases rs with _ | ⟨r0, rs'⟩ <;>
      simp [truthy]
  · intro hdt
    simp [validate_document_report, pySubscriptStr, pyGet, pyGetD, hdt]
  · intro hsum
    simp [validate_document_report, pySubscriptStr, pyGet, pyGetD, hsum]

/-- Witness for C7 at the mapping `{"missing_fields": ["ABN"]}`. -/
theorem validate_report_status_and_defaults_witness :
    (pySubscriptStr (validate_document_report [("missing_fields", .list [.str "ABN"])])
        "status" = some (.str "NEEDS_ATTENTION") ↔
      (([.str "ABN"] : List PyVal) ≠ [] ∨ ([] : List PyVal) ≠ [] ∨ ([] : List PyVal) ≠ [])) ∧
    (pySubscriptStr (validate_document_report [("missing_fields", .list [.str "ABN"])])
        "status" = some (.str "CLEAR") ↔
      ¬(([.str "ABN"] : List PyVal) ≠ [] ∨ ([] : List PyVal) ≠ [] ∨ ([] : List PyVal) ≠ [])) ∧
    (pyGet [("missing_fields", .list [.str "ABN"])] "document_type" = Option.none →
      pySubscriptStr (validate_document_report [("missing_fields", .list [.str "ABN"])])
        "document_type" = some (.str "Unknown")) ∧
    (pyGet [("missing_fields", .list [.str "ABN"])] "summary" = Option.none →
      pySubscriptStr (validate_document_report [("missing_fields", .list [.str "ABN"])])
        "message" = some (.str "Document analysis completed.")) ∧
    validate_document_report [] =
      .dict [("document_type", .str "Unknown"), ("status", .str "CLEAR"),
             ("issues", .dict [("missing_fields", .list []), ("invalid_fields", .list []),
                               ("risks", .list [])]),
             ("message", .str "Document analysis completed.")] :=
  validate_report_status_and_defaults [("missing_fields", .list [.str "ABN"])]
    [.str "ABN"] [] rfl rfl

/-- C8 counterexample: the claim says the batch aborts with an error
carrying the provider's status; the code raises
`RuntimeError("Embedding generation failed")` with a fixed message — two
providers failing with different statuses (500 and 503) produce the
identical error value, so the error carries no status. -/
theorem embed_chunks_error_carries_no_status :
    embed_chunks (fun _ => ⟨500, []⟩) [['x']] =
      .error (.runtimeError "Embedding generation failed") ∧
    embed_chunks (fun _ => ⟨503, []⟩) [['x']] =
      .error (.runtimeError "Embedding generation failed") := ⟨rfl, rfl⟩

/-- C8 (amended): if every provider call returns status 200 the batch
succeeds order-preservingly with exactly one embedding per input text; if
any call returns a non-200 status the entire batch aborts with the
fixed-message `RuntimeError` (no partial result is returned, and the error
does not include the provider's status). -/
theorem embed_chunks_spec (provider : List Char → EmbResp) (chunks : List (List Char)) :
    ((∀ c ∈ chunks, (provider c).status = 200) →
      embed_chunks provider chunks =
        .ok (chunks.map fun c => ⟨c, (provider c).embedding⟩)) ∧
    ((∃ c ∈ chunks, (provider c).status ≠ 200) →
      embed_chunks provider chunks =
        .error (.runtimeError "Embedding generation failed")) := by
  induction chunks with
  | nil =>
    refine ⟨fun _ => rfl, ?_⟩
    rintro ⟨c, hc, _⟩
    simp at hc
  | cons c rest ih =>
    constructor
    · intro hall
      have hc := hall c (List.mem_cons_self c rest)
      have hrest := ih.1 fun x hx => hall x (List.mem_cons_of_mem c hx)
      simp [embed_chunks, hc, hrest]
    · rintro ⟨x, hx, hxbad⟩
      by_cases hcs : (provider c).status = 200
      · rcases List.mem_cons.mp hx with rfl | hxr
        · exact absurd hcs hxbad
        · have hrest := ih.2 ⟨x, hxr, hxbad⟩
          simp [embed_chunks, hcs, hrest]
      · simp [embed_chunks, hcs]

/-- Witness for C8: an all-success batch and a batch whose second call
fails with status 503. -/
theorem embed_chunks_spec_witness :
    embed_chunks (fun _ => EmbResp.mk 200 [1]) [['a'], ['b']] =
      .ok [⟨['a'], [1]⟩, ⟨['b'], [1]⟩] ∧
    embed_chunks (fun c => if c = ['b'] then EmbResp.mk 503 [] else EmbResp.mk 200 [1])
        [['a'], ['b']] =
      .error (.runtimeError "Embedding generation failed") :=
  ⟨(embed_chunks_spec (fun _ => EmbResp.mk 200 [1]) [['a'], ['b']]).1 (fun _ _ => rfl),
   (embed_chunks_spec (fun c => if c = ['b'] then EmbResp.mk 503 [] else EmbResp.mk 200 [1])
      [['a'], ['b']]).2 ⟨['b'], by decide, by decide⟩⟩

/-- C9: the parser has a dedicated branch for falsy input: it returns
exactly `{"error": "Empty AI response"}` — a mapping with no
`raw_response` key, different from the parse-failure fallback mapping. -/
theorem parse_ai_json_falsy_branch (v : PyVal) (hfalsy : truthy v = false) :
    parse_ai_json v = .ok (.dict [("error", .str "Empty AI response")]) ∧
    pySubscriptStr (.dict [("error", .str "Empty AI response")]) "raw_response" =
      Option.none ∧
    ∀ s : String, PyVal.dict [("error", .str "Empty AI response")] ≠
      PyVal.dict [("error", .str "Invalid JSON returned by AI"),
                  ("raw_response", .str s)] := by
  refine ⟨by simp [parse_ai_json, hfalsy], rfl, ?_⟩
  intro s h
  have h2 := congrArg (fun w => pySubscriptStr w "error") h
  simp [pySubscriptStr, pyGet] at h2

/-- Witness for C9 at the empty string. -/
theorem parse_ai_json_falsy_branch_witness :
    parse_ai_json (.str "") = .ok (.dict [("error", .str "Empty AI response")]) ∧
    pySubscriptStr (.dict [("error", .str "Empty AI response")]) "raw_response" =
      Option.none ∧
    ∀ s : String, PyVal.dict [("error", .str "Empty AI response")] ≠
      PyVal.dict [("error", .str "Invalid JSON returned by AI"),
                  ("raw_response", .str s)] :=
  parse_ai_json_falsy_branch (.str "") rfl

/-- C10: when the completion provider answers 200 but the body lacks the
`choices[0].message.content` shape (or is not JSON at all), the client
catches the exception and returns exactly `{"error": "AI analysis failed"}`
— a one-key error value with no status code and no raw body, distinct from
the non-success-status error shape. -/
theorem analyze_malformed_success_body (res : HttpResp) (h200 : res.status = 200)
    (hmal : extractContent res.body = Option.none) :
    analyze_document_with_ai res = .dict [("error", .str "AI analysis failed")] ∧
    pySubscriptStr (analyze_document_with_ai res) "status_code" = Option.none ∧
    pySubscriptStr (analyze_document_with_ai res) "response" = Option.none := by
  have h : analyze_document_with_ai res = .dict [("error", .str "AI analysis failed")] := by
    simp [analyze_document_with_ai, h200, hmal]
  refine ⟨h, ?_, ?_⟩ <;> rw [h] <;> rfl

/-- Witness for C10 at a 200 response whose JSON body is the empty object. -/
theorem analyze_malformed_success_body_witness :
    analyze_document_with_ai ⟨200, some (.dict []), "x"⟩ =
      .dict [("error", .str "AI analysis failed")] ∧
    pySubscriptStr (analyze_document_with_ai ⟨200, some (.dict []), "x"⟩)
      "status_code" = Option.none ∧
    pySubscriptStr (analyze_document_with_ai ⟨200, some (.dict []), "x"⟩)
      "response" = Option.none :=
  analyze_malformed_success_body ⟨200, some (.dict []), "x"⟩ rfl rfl
